import Mathlib

/-!
Verification of the live-response synchronization and progressive-rendering
pipeline of the openclaw control dashboard.

The development shallowly embeds the relevant TypeScript modules:

* `ui/src/ui/controllers/chat.ts` — chat event routing (`handleChatEvent`),
  the throttle scheduler (`scheduleChatStreamSync`, `syncChatStreamBuffer`,
  `flushChatStream`) and the stall predicate (`checkChatStreamTimeout`);
* `ui/src/ui/app-lifecycle.ts` — the heartbeat handler
  (`handleChatHeartbeat`);
* `ui/src/ui/chat/typewriter.ts` — the progressive reveal directive
  (`TypewriterDirective.update` / `TypewriterDirective._tick`).

Modelling conventions:

* Timestamps (`performance.now()` / `Date.now()` values) are `Int`, so that
  JavaScript number subtraction is ordinary integer subtraction.
* A `setTimeout` handle is modelled by the instant at which the scheduled
  callback fires (`pendingSync : Option Int`); firing the callback is the
  explicit step `firePendingSync`.
* JavaScript strings are Lean `String`s (texts, ids) with `String.length`
  for `.length`; the typewriter directive, which walks strings character by
  character (`charCodeAt`), is modelled over `List Char`.
* JavaScript truthiness of `string | null` / `number | null` fields is made
  explicit by `truthy` / `truthyTime`.
* `extractText` (from `message-extract.ts`, a collaborator of the router) is
  not modelled internally: a payload's `message` field is represented by the
  `Option String` result of that extraction, which is how the specification
  (§6) and the claims refer to it.
* The module-level `throttleStates` map is keyed by session key; all claims
  concern a single session, so the functions below take the entry for the
  session under consideration as an explicit `ChatStreamThrottleState`
  argument, and fields of the reactive state object (`client`,
  `chatMessages`, …) that the embedded functions never touch are omitted.
-/

set_option autoImplicit false

/-- `CHAT_STREAM_THROTTLE_MS` from `controllers/chat.ts`. -/
def CHAT_STREAM_THROTTLE_MS : Int := 50

/-- `CHAT_STREAM_TIMEOUT_MS` from `controllers/chat.ts`. -/
def CHAT_STREAM_TIMEOUT_MS : Int := 60000

/-- JavaScript truthiness of a `string | null` value: `null` and `""` are falsy. -/
def truthy : Option String → Bool
  | none => false
  | some s => s != ""

/-- JavaScript truthiness of a `number | null` timestamp: `null` and `0` are falsy. -/
def truthyTime : Option Int → Bool
  | none => false
  | some n => n != 0

/-- The fields of `ChatState` (`controllers/chat.ts`) read or written by the
embedded functions. -/
structure ChatState where
  sessionKey : String
  chatRunId : Option String
  chatStream : Option String
  chatStreamSegments : Option (List String)
  chatStreamStartedAt : Option Int
  lastError : Option String
deriving DecidableEq, Repr

/-- `ChatStreamThrottleState` (`controllers/chat.ts`): the per-session throttle
context. `pendingSync` holds the instant the scheduled `setTimeout` callback
fires, or `none` when no timer is outstanding. -/
structure ChatStreamThrottleState where
  buffer : Option String
  segmentsBuffer : Option (List String)
  pendingSync : Option Int
  lastSyncTime : Int
deriving DecidableEq, Repr

/-- The `state` discriminant of a `ChatEventPayload`. -/
inductive EvState where
  | delta
  | final
  | aborted
  | error
deriving DecidableEq, Repr

/-- The string returned for `return payload.state` in `handleChatEvent`. -/
def evStateStr : EvState → String
  | .delta => "delta"
  | .final => "final"
  | .aborted => "aborted"
  | .error => "error"

/-- `ChatEventPayload` (`controllers/chat.ts`). `message` is the `Option String`
result of the collaborator `extractText` on the structured message; `segments`
is `some l` exactly when the raw payload carries an array of segment strings. -/
structure ChatEventPayload where
  runId : String
  sessionKey : String
  state : EvState
  message : Option String
  errorMessage : Option String
  segments : Option (List String)
deriving DecidableEq, Repr

/-- `syncChatStreamBuffer` (`controllers/chat.ts` lines 86–92): stamp
`lastSyncTime`, then copy the buffered text and segments into the reactive
state when a buffer exists and differs from the committed text. -/
def syncChatStreamBuffer (now : Int) (st : ChatState) (ts : ChatStreamThrottleState) :
    ChatState × ChatStreamThrottleState :=
  match ts.buffer with
  | some b =>
      if some b ≠ st.chatStream then
        ({ st with chatStream := some b, chatStreamSegments := ts.segmentsBuffer },
         { ts with lastSyncTime := now })
      else
        (st, { ts with lastSyncTime := now })
  | none => (st, { ts with lastSyncTime := now })

/-- `scheduleChatStreamSync` (`controllers/chat.ts` lines 62–81): no-op when a
timer is already outstanding; otherwise commit immediately on the leading edge
(`elapsed ≥ CHAT_STREAM_THROTTLE_MS`) or schedule a deferred commit for the
remaining throttle time. -/
def scheduleChatStreamSync (now : Int) (st : ChatState) (ts : ChatStreamThrottleState) :
    ChatState × ChatStreamThrottleState :=
  if ts.pendingSync ≠ none then
    (st, ts)
  else if now - ts.lastSyncTime ≥ CHAT_STREAM_THROTTLE_MS then
    syncChatStreamBuffer now st ts
  else
    (st, { ts with
      pendingSync := some (now + (CHAT_STREAM_THROTTLE_MS - (now - ts.lastSyncTime))) })

/-- The body of the `setTimeout` callback installed by `scheduleChatStreamSync`
(lines 76–79), executed at its scheduled instant `now`: clear the handle, then
sync the buffer. -/
def firePendingSync (now : Int) (st : ChatState) (ts : ChatStreamThrottleState) :
    ChatState × ChatStreamThrottleState :=
  syncChatStreamBuffer now st { ts with pendingSync := none }

/-- Number of `window.setTimeout` calls a single `scheduleChatStreamSync`
invocation performs, read off the branch structure of lines 62–81: zero on the
early return and on the leading-edge commit, one when a deferred commit is
scheduled. -/
def setTimeoutCalls (now : Int) (ts : ChatStreamThrottleState) : Nat :=
  if ts.pendingSync ≠ none then 0
  else if now - ts.lastSyncTime ≥ CHAT_STREAM_THROTTLE_MS then 0
  else 1

/-- Number of `state.chatStream = ts.buffer` assignment statements a single
`syncChatStreamBuffer` invocation executes (the guarded assignment of lines
88–91). -/
def syncAssigns (st : ChatState) (ts : ChatStreamThrottleState) : Nat :=
  match ts.buffer with
  | some b => if some b ≠ st.chatStream then 1 else 0
  | none => 0

/-- `flushChatStream` (`controllers/chat.ts` lines 98–110): cancel any pending
timer, then commit the buffer unconditionally and clear it. -/
def flushChatStream (st : ChatState) (ts : ChatStreamThrottleState) :
    ChatState × ChatStreamThrottleState :=
  match ts.buffer with
  | some b =>
      ({ st with chatStream := some b, chatStreamSegments := ts.segmentsBuffer },
       { ts with pendingSync := none, buffer := none, segmentsBuffer := none })
  | none => (st, { ts with pendingSync := none })

/-- `checkChatStreamTimeout` (`controllers/chat.ts` lines 148–154): `false`
unless both `chatRunId` and `chatStreamStartedAt` are truthy and more than
`CHAT_STREAM_TIMEOUT_MS` has elapsed since the run started. -/
def checkChatStreamTimeout (now : Int) (st : ChatState) : Bool :=
  if !(truthy st.chatRunId) || !(truthyTime st.chatStreamStartedAt) then
    false
  else
    decide (now - st.chatStreamStartedAt.getD 0 > CHAT_STREAM_TIMEOUT_MS)

/-- The cross-run guard of `handleChatEvent` (line 320):
`payload.runId && state.chatRunId && payload.runId !== state.chatRunId`. -/
def crossRunMismatch (st : ChatState) (p : ChatEventPayload) : Bool :=
  (p.runId != "") && truthy st.chatRunId && (some p.runId != st.chatRunId)

/-- `handleChatEvent` (`controllers/chat.ts` lines 307–363). Returns the
updated reactive state, the updated throttle context for the session, and the
routing outcome (`none` models a `null` return). -/
def handleChatEvent (now : Int) (st : ChatState) (ts : ChatStreamThrottleState)
    (payload : Option ChatEventPayload) :
    ChatState × ChatStreamThrottleState × Option String :=
  match payload with
  | none => (st, ts, none)
  | some p =>
      if p.sessionKey ≠ st.sessionKey then
        (st, ts, none)
      else if crossRunMismatch st p then
        if p.state = .final then (st, ts, some "final-other") else (st, ts, none)
      else
        match p.state with
        | .delta =>
            match p.message with
            | some next =>
                let current := st.chatStream.getD ""
                if current = "" ∨ next.length ≥ current.length then
                  let ts1 := { ts with buffer := some next, segmentsBuffer := p.segments }
                  let r := scheduleChatStreamSync now st ts1
                  (r.1, r.2, some (evStateStr .delta))
                else
                  (st, ts, some (evStateStr .delta))
            | none => (st, ts, some (evStateStr .delta))
        | .final =>
            let r := flushChatStream st ts
            (r.1, r.2, some "final")
        | .aborted =>
            let r := flushChatStream st ts
            ({ r.1 with
                chatStream := none
                chatStreamSegments := none
                chatRunId := none
                chatStreamStartedAt := none },
              r.2, some (evStateStr .aborted))
        | .error =>
            let r := flushChatStream st ts
            ({ r.1 with
                chatStream := none
                chatStreamSegments := none
                chatRunId := none
                chatStreamStartedAt := none
                lastError := some (p.errorMessage.getD "chat error") },
              r.2, some (evStateStr .error))

/-- `handleChatHeartbeat` (`app-lifecycle.ts` lines 318–336). The returned
`Bool` records whether the stale branch ran, i.e. whether `loadChatHistory`
was triggered. -/
def handleChatHeartbeat (now : Int) (connected : Bool) (tabIsChat : Bool) (st : ChatState) :
    ChatState × Bool :=
  if !connected || !tabIsChat then
    (st, false)
  else if checkChatStreamTimeout now st then
    ({ st with
        chatRunId := none
        chatStream := none
        chatStreamSegments := none
        chatStreamStartedAt := none },
      true)
  else
    (st, false)

/-! ### Progressive reveal (typewriter directive, `chat/typewriter.ts`) -/

/-- `CHARS_PER_FRAME` from `chat/typewriter.ts`. -/
def CHARS_PER_FRAME : Nat := 12

/-- `CATCH_UP_THRESHOLD` from `chat/typewriter.ts`. -/
def CATCH_UP_THRESHOLD : Nat := 200

/-- `CATCH_UP_MULTIPLIER` from `chat/typewriter.ts`. -/
def CATCH_UP_MULTIPLIER : Nat := 4

/-- JavaScript `s.startsWith(p)` on character lists: `startsWith s p` is `true`
when `p` is a leading subsequence of `s`. -/
def startsWith : List Char → List Char → Bool
  | _, [] => true
  | [], _ :: _ => false
  | a :: s, b :: p => a == b && startsWith s p

/-- `commonPrefixLength` (`chat/typewriter.ts` lines 51–59): the index of the
first character-code mismatch, or the shorter length when none. -/
def commonPrefixLength : List Char → List Char → Nat
  | a :: as, b :: bs => if a == b then commonPrefixLength as bs + 1 else 0
  | _, _ => 0

/-- The reveal state of a `TypewriterDirective` node: `_target` and
`_revealed` from `chat/typewriter.ts`. The DOM element, frame handle and
markdown-render timestamp play no part in the reveal arithmetic. -/
structure TypewriterDirective where
  target : List Char
  revealed : Nat
deriving DecidableEq, Repr

/-- The reveal state of a node when it first binds (`_target = ""`,
`_revealed = 0`). -/
def TypewriterDirective.initial : TypewriterDirective :=
  { target := [], revealed := 0 }

/-- `TypewriterDirective.update` (`chat/typewriter.ts` lines 80–118), reveal
arithmetic only: classify the new target against the previous one (append /
truncation / rewrite), clamp the reveal cursor accordingly, then re-clamp to
the new target's bounds. -/
def TypewriterDirective.update (s : TypewriterDirective) (text : List Char) :
    TypewriterDirective :=
  { target := text
    revealed :=
      min
        (if startsWith text s.target then
          s.revealed
        else if startsWith s.target text then
          min s.revealed text.length
        else
          min s.revealed (commonPrefixLength s.target text))
        text.length }

/-- `TypewriterDirective._tick` (`chat/typewriter.ts` lines 145–161), reveal
arithmetic only: no-op once caught up, otherwise advance the cursor by the
(possibly boosted) per-frame rate, capped at the target length. -/
def TypewriterDirective.tick (s : TypewriterDirective) : TypewriterDirective :=
  if s.revealed ≥ s.target.length then
    s
  else
    { s with
        revealed :=
          min
            (s.revealed +
              (if s.target.length - s.revealed > CATCH_UP_THRESHOLD then
                CHARS_PER_FRAME * CATCH_UP_MULTIPLIER
              else
                CHARS_PER_FRAME))
            s.target.length }

/-- The RevealState invariant of spec §3: the reveal cursor stays within the
target's bounds (the lower bound is the type of `revealed`). -/
def RevealInv (s : TypewriterDirective) : Prop :=
  s.revealed ≤ s.target.length

/-! ### Frame lemmas for the throttle scheduler -/

theorem flushChatStream_spec (st : ChatState) (ts : ChatStreamThrottleState) :
    (flushChatStream st ts).1.sessionKey = st.sessionKey ∧
    (flushChatStream st ts).1.chatRunId = st.chatRunId ∧
    (flushChatStream st ts).1.chatStreamStartedAt = st.chatStreamStartedAt ∧
    (flushChatStream st ts).1.lastError = st.lastError ∧
    (flushChatStream st ts).2.pendingSync = none ∧
    (∀ b, ts.buffer = some b →
      (flushChatStream st ts).1.chatStream = some b ∧
      (flushChatStream st ts).1.chatStreamSegments = ts.segmentsBuffer ∧
      (flushChatStream st ts).2.buffer = none ∧
      (flushChatStream st ts).2.segmentsBuffer = none) ∧
    (ts.buffer = none → (flushChatStream st ts).1 = st) := by
  unfold flushChatStream
  rcases h : ts.buffer with _ | b <;> simp [h]

theorem scheduleChatStreamSync_already_pending (now : Int) (st : ChatState)
    (ts : ChatStreamThrottleState) (h : ts.pendingSync ≠ none) :
    scheduleChatStreamSync now st ts = (st, ts) := by
  simp [scheduleChatStreamSync, h]

theorem scheduleChatStreamSync_defer (now : Int) (st : ChatState)
    (ts : ChatStreamThrottleState) (h1 : ts.pendingSync = none)
    (h2 : now - ts.lastSyncTime < CHAT_STREAM_THROTTLE_MS) :
    scheduleChatStreamSync now st ts =
      (st, { ts with pendingSync := some (ts.lastSyncTime + CHAT_STREAM_THROTTLE_MS) }) := by
  have harith : now + (CHAT_STREAM_THROTTLE_MS - (now - ts.lastSyncTime)) =
      ts.lastSyncTime + CHAT_STREAM_THROTTLE_MS := by ring
  simp [scheduleChatStreamSync, h1, not_le.mpr h2, harith]

theorem scheduleChatStreamSync_lead (now : Int) (st : ChatState)
    (ts : ChatStreamThrottleState) (h1 : ts.pendingSync = none)
    (h2 : now - ts.lastSyncTime ≥ CHAT_STREAM_THROTTLE_MS) :
    scheduleChatStreamSync now st ts = syncChatStreamBuffer now st ts := by
  simp [scheduleChatStreamSync, h1, h2]

/-! ### Claims C1, C2, C5 -/

/-- Counterexample to claim C1: a `final` event for the active run (run id
`"A"`, matching session `"s"`) returns `final`, but `chatRunId`, `chatStream`
and `chatStreamStartedAt` are NOT cleared to `null` — the branch at
`controllers/chat.ts` lines 341–347 deliberately leaves them in place. -/
theorem c1_counterexample :
    (handleChatEvent 100 ⟨"s", some "A", some "hi", none, some 5, none⟩
        ⟨none, none, none, 0⟩ (some ⟨"A", "s", .final, none, none, none⟩)).2.2 = some "final" ∧
    (handleChatEvent 100 ⟨"s", some "A", some "hi", none, some 5, none⟩
        ⟨none, none, none, 0⟩ (some ⟨"A", "s", .final, none, none, none⟩)).1.chatRunId = some "A" ∧
    (handleChatEvent 100 ⟨"s", some "A", some "hi", none, some 5, none⟩
        ⟨none, none, none, 0⟩ (some ⟨"A", "s", .final, none, none, none⟩)).1.chatStream = some "hi" ∧
    (handleChatEvent 100 ⟨"s", some "A", some "hi", none, some 5, none⟩
        ⟨none, none, none, 0⟩ (some ⟨"A", "s", .final, none, none, none⟩)).1.chatStreamStartedAt
      = some 5 := by
  decide

/-- Claim C1 (amended): a `final` event matching the active run returns
`final`, but afterwards `chatRunId` still holds the active run id,
`chatStreamStartedAt` is unchanged, and `chatStream` holds the flushed buffer
text (or is untouched when no text was buffered) — nothing is nulled. -/
theorem c1_final_leaves_run_uncleared (now : Int) (st : ChatState)
    (ts : ChatStreamThrottleState) (p : ChatEventPayload) (r : String)
    (hsk : p.sessionKey = st.sessionKey) (hrun : st.chatRunId = some r)
    (hrid : p.runId = r) (hfin : p.state = .final) :
    (handleChatEvent now st ts (some p)).2.2 = some "final" ∧
    (handleChatEvent now st ts (some p)).1.chatRunId = some r ∧
    (handleChatEvent now st ts (some p)).1.chatStreamStartedAt = st.chatStreamStartedAt ∧
    (∀ b, ts.buffer = some b → (handleChatEvent now st ts (some p)).1.chatStream = some b) ∧
    (ts.buffer = none → (handleChatEvent now st ts (some p)).1.chatStream = st.chatStream) := by
  have hguard : crossRunMismatch st p = false := by
    simp [crossRunMismatch, hrid, hrun]
  have hmain : handleChatEvent now st ts (some p) =
      ((flushChatStream st ts).1, (flushChatStream st ts).2, some "final") := by
    simp [handleChatEvent, hsk, hguard, hfin]
  rw [hmain]
  refine ⟨rfl, ?_, (flushChatStream_spec st ts).2.2.1, ?_, ?_⟩
  · rw [(flushChatStream_spec st ts).2.1, hrun]
  · intro b hb
    exact ((flushChatStream_spec st ts).2.2.2.2.2.1 b hb).1
  · intro hb
    rw [(flushChatStream_spec st ts).2.2.2.2.2.2 hb]

/-- Witness for `c1_final_leaves_run_uncleared` at a concrete input. -/
theorem c1_witness :
    ("s" : String) = "s" ∧ (some "A" : Option String) = some "A" ∧
    (handleChatEvent 100 ⟨"s", some "A", some "hi", none, some 5, none⟩
        ⟨some "buf", none, some 40, 0⟩ (some ⟨"A", "s", .final, none, none, none⟩)).2.2
      = some "final" ∧
    (handleChatEvent 100 ⟨"s", some "A", some "hi", none, some 5, none⟩
        ⟨some "buf", none, some 40, 0⟩ (some ⟨"A", "s", .final, none, none, none⟩)).1.chatStream
      = some "buf" := by
  have h := c1_final_leaves_run_uncleared 100 ⟨"s", some "A", some "hi", none, some 5, none⟩
    ⟨some "buf", none, some 40, 0⟩ ⟨"A", "s", .final, none, none, none⟩ "A"
    rfl rfl rfl rfl
  exact ⟨rfl, rfl, h.1, h.2.2.2.1 "buf" rfl⟩

/-- Claim C2: for a `final` event matching the active run, `handleChatEvent`
is exactly `flushChatStream` (committing any pending buffer) followed by
returning `final`: `chatRunId`, `chatStream`, `chatStreamSegments` and
`chatStreamStartedAt` keep their post-flush values and none is nulled. -/
theorem c2_final_is_flush_then_retain (now : Int) (st : ChatState)
    (ts : ChatStreamThrottleState) (p : ChatEventPayload) (r : String)
    (hsk : p.sessionKey = st.sessionKey) (hrun : st.chatRunId = some r)
    (hrid : p.runId = r) (hfin : p.state = .final) :
    handleChatEvent now st ts (some p) =
      ((flushChatStream st ts).1, (flushChatStream st ts).2, some "final") ∧
    (handleChatEvent now st ts (some p)).1.chatRunId = st.chatRunId ∧
    (handleChatEvent now st ts (some p)).1.chatStreamStartedAt = st.chatStreamStartedAt := by
  have hguard : crossRunMismatch st p = false := by
    simp [crossRunMismatch, hrid, hrun]
  have hmain : handleChatEvent now st ts (some p) =
      ((flushChatStream st ts).1, (flushChatStream st ts).2, some "final") := by
    simp [handleChatEvent, hsk, hguard, hfin]
  rw [hmain]
  exact ⟨rfl, (flushChatStream_spec st ts).2.1, (flushChatStream_spec st ts).2.2.1⟩

/-- Witness for `c2_final_is_flush_then_retain` at a concrete input. -/
theorem c2_witness :
    ("s" : String) = "s" ∧
    handleChatEvent 7 ⟨"s", some "A", some "x", none, some 1, none⟩
        ⟨some "xy", some ["xy"], some 40, 0⟩ (some ⟨"A", "s", .final, none, none, none⟩) =
      ((flushChatStream ⟨"s", some "A", some "x", none, some 1, none⟩
          ⟨some "xy", some ["xy"], some 40, 0⟩).1,
       (flushChatStream ⟨"s", some "A", some "x", none, some 1, none⟩
          ⟨some "xy", some ["xy"], some 40, 0⟩).2,
       some "final") := by
  have h := c2_final_is_flush_then_retain 7 ⟨"s", some "A", some "x", none, some 1, none⟩
    ⟨some "xy", some ["xy"], some 40, 0⟩ ⟨"A", "s", .final, none, none, none⟩ "A"
    rfl rfl rfl rfl
  exact ⟨rfl, h.1⟩

/-- Claim C5: an event whose non-empty `runId` differs from the active run's
id (on the matching session) leaves the reactive state and the throttle
context untouched and returns `final-other` for a `final` event and `null`
otherwise. -/
theorem c5_foreign_run_isolation (now : Int) (st : ChatState)
    (ts : ChatStreamThrottleState) (p : ChatEventPayload) (r : String)
    (hsk : p.sessionKey = st.sessionKey) (hrun : st.chatRunId = some r)
    (hr : r ≠ "") (hpr : p.runId ≠ "") (hne : p.runId ≠ r) :
    handleChatEvent now st ts (some p) =
      (st, ts, if p.state = .final then some "final-other" else none) := by
  have hguard : crossRunMismatch st p = true := by
    simp [crossRunMismatch, truthy, hrun, bne_iff_ne, hpr, hr, hne]
  simp only [handleChatEvent, hsk]
  rw [if_neg (by simp), if_pos (by rw [hguard])]
  split <;> rfl

/-- Witness for `c5_foreign_run_isolation` at a concrete input: a `final`
event for run `"B"` while run `"A"` is active. -/
theorem c5_witness :
    ("A" : String) ≠ "" ∧ ("B" : String) ≠ "A" ∧
    handleChatEvent 3 ⟨"s", some "A", some "x", none, some 1, none⟩
        ⟨some "p", none, some 40, 0⟩ (some ⟨"B", "s", .final, none, none, none⟩) =
      (⟨"s", some "A", some "x", none, some 1, none⟩,
       ⟨some "p", none, some 40, 0⟩, some "final-other") := by
  have h := c5_foreign_run_isolation 3 ⟨"s", some "A", some "x", none, some 1, none⟩
    ⟨some "p", none, some 40, 0⟩ ⟨"B", "s", .final, none, none, none⟩ "A"
    rfl rfl (by decide) (by decide) (by decide)
  exact ⟨by decide, by decide, h⟩

theorem syncChatStreamBuffer_frame (now : Int) (st : ChatState) (ts : ChatStreamThrottleState) :
    (syncChatStreamBuffer now st ts).2.buffer = ts.buffer ∧
    (syncChatStreamBuffer now st ts).2.segmentsBuffer = ts.segmentsBuffer ∧
    (syncChatStreamBuffer now st ts).2.pendingSync = ts.pendingSync ∧
    (syncChatStreamBuffer now st ts).2.lastSyncTime = now ∧
    (syncChatStreamBuffer now st ts).1.chatRunId = st.chatRunId ∧
    (syncChatStreamBuffer now st ts).1.chatStreamStartedAt = st.chatStreamStartedAt ∧
    (syncChatStreamBuffer now st ts).1.sessionKey = st.sessionKey ∧
    (syncChatStreamBuffer now st ts).1.lastError = st.lastError := by
  unfold syncChatStreamBuffer
  rcases h : ts.buffer with _ | b
  · simp [h]
  · simp only [h]
    split <;> simp

theorem syncChatStreamBuffer_commit (now : Int) (st : ChatState) (ts : ChatStreamThrottleState)
    (b : String) (hb : ts.buffer = some b) (hne : some b ≠ st.chatStream) :
    (syncChatStreamBuffer now st ts).1.chatStream = some b ∧
    (syncChatStreamBuffer now st ts).1.chatStreamSegments = ts.segmentsBuffer := by
  unfold syncChatStreamBuffer
  simp [hb, hne]

theorem scheduleChatStreamSync_frame (now : Int) (st : ChatState) (ts : ChatStreamThrottleState) :
    (scheduleChatStreamSync now st ts).2.buffer = ts.buffer ∧
    (scheduleChatStreamSync now st ts).2.segmentsBuffer = ts.segmentsBuffer ∧
    (scheduleChatStreamSync now st ts).1.chatRunId = st.chatRunId ∧
    (scheduleChatStreamSync now st ts).1.chatStreamStartedAt = st.chatStreamStartedAt := by
  unfold scheduleChatStreamSync
  split
  · simp
  · split
    · exact ⟨(syncChatStreamBuffer_frame now st ts).1,
        (syncChatStreamBuffer_frame now st ts).2.1,
        (syncChatStreamBuffer_frame now st ts).2.2.2.2.1,
        (syncChatStreamBuffer_frame now st ts).2.2.2.2.2.1⟩
    · simp

/-! ### Claim C3 -/

/-- Counterexample to claim C3: a leading-edge commit performed by the
scheduler itself (buffer `"x"`, elapsed `100 ≥ 50`) copies the pending text
into `chatStream` and updates `lastSyncTime`, but the context's pending text
and pending segments are NOT cleared to null — `syncChatStreamBuffer`
(`controllers/chat.ts` lines 86–92) never clears them. -/
theorem c3_counterexample :
    (scheduleChatStreamSync 100 ⟨"s", some "A", none, none, some 1, none⟩
        ⟨some "x", some ["x"], none, 0⟩).1.chatStream = some "x" ∧
    (scheduleChatStreamSync 100 ⟨"s", some "A", none, none, some 1, none⟩
        ⟨some "x", some ["x"], none, 0⟩).2.lastSyncTime = 100 ∧
    (scheduleChatStreamSync 100 ⟨"s", some "A", none, none, some 1, none⟩
        ⟨some "x", some ["x"], none, 0⟩).2.buffer = some "x" ∧
    (scheduleChatStreamSync 100 ⟨"s", some "A", none, none, some 1, none⟩
        ⟨some "x", some ["x"], none, 0⟩).2.segmentsBuffer = some ["x"] := by
  decide

/-- Claim C3 (amended): both scheduler commit paths (the leading edge of
`scheduleChatStreamSync` and the deferred timer callback `firePendingSync`)
are `syncChatStreamBuffer`, which copies the pending value into `chatStream`
(when it differs) and updates `lastSyncTime` but RETAINS the pending text and
segments; only `flushChatStream` clears the pending fields. -/
theorem c3_commit_retains_pending (now : Int) (st : ChatState) (ts : ChatStreamThrottleState) :
    ((syncChatStreamBuffer now st ts).2.buffer = ts.buffer ∧
     (syncChatStreamBuffer now st ts).2.segmentsBuffer = ts.segmentsBuffer ∧
     (syncChatStreamBuffer now st ts).2.lastSyncTime = now) ∧
    (∀ b, ts.buffer = some b → some b ≠ st.chatStream →
      (syncChatStreamBuffer now st ts).1.chatStream = some b ∧
      (syncChatStreamBuffer now st ts).1.chatStreamSegments = ts.segmentsBuffer) ∧
    (ts.pendingSync = none → now - ts.lastSyncTime ≥ CHAT_STREAM_THROTTLE_MS →
      scheduleChatStreamSync now st ts = syncChatStreamBuffer now st ts) ∧
    firePendingSync now st ts = syncChatStreamBuffer now st { ts with pendingSync := none } ∧
    (∀ b, ts.buffer = some b →
      (flushChatStream st ts).2.buffer = none ∧
      (flushChatStream st ts).2.segmentsBuffer = none) := by
  refine ⟨⟨(syncChatStreamBuffer_frame now st ts).1, (syncChatStreamBuffer_frame now st ts).2.1,
      (syncChatStreamBuffer_frame now st ts).2.2.2.1⟩, ?_, ?_, rfl, ?_⟩
  · intro b hb hne
    exact syncChatStreamBuffer_commit now st ts b hb hne
  · intro h1 h2
    exact scheduleChatStreamSync_lead now st ts h1 h2
  · intro b hb
    exact ⟨((flushChatStream_spec st ts).2.2.2.2.2.1 b hb).2.2.1,
      ((flushChatStream_spec st ts).2.2.2.2.2.1 b hb).2.2.2⟩

/-- Witness for `c3_commit_retains_pending` at a concrete input. -/
theorem c3_witness :
    (⟨some "x", some ["x"], none, 0⟩ : ChatStreamThrottleState).buffer = some "x" ∧
    (some "x" : Option String) ≠ none ∧
    (syncChatStreamBuffer 100 ⟨"s", some "A", none, none, some 1, none⟩
        ⟨some "x", some ["x"], none, 0⟩).2.buffer = some "x" ∧
    (syncChatStreamBuffer 100 ⟨"s", some "A", none, none, some 1, none⟩
        ⟨some "x", some ["x"], none, 0⟩).1.chatStream = some "x" := by
  have h := c3_commit_retains_pending 100 ⟨"s", some "A", none, none, some 1, none⟩
    ⟨some "x", some ["x"], none, 0⟩
  exact ⟨rfl, by decide, h.1.1, (h.2.1 "x" rfl (by decide)).1⟩

/-! ### Claims C6, C10 -/

/-- Claim C6: in the delta branch, the extracted text `t` reaches the throttle
buffer exactly when the monotonic-growth guard accepts it (`chatStream` empty
or `t` at least as long); on acceptance the whole effect is
`scheduleChatStreamSync` on the buffer-updated context (the branch never
assigns `chatStream` itself — commits happen only inside the scheduler), and
on rejection both the reactive state and the throttle context are untouched. -/
theorem c6_delta_branch_monotonic_guard (now : Int) (st : ChatState)
    (ts : ChatStreamThrottleState) (p : ChatEventPayload) (t : String)
    (hsk : p.sessionKey = st.sessionKey)
    (hguard : crossRunMismatch st p = false)
    (hdl : p.state = .delta)
    (hmsg : p.message = some t) :
    (st.chatStream.getD "" = "" ∨ t.length ≥ (st.chatStream.getD "").length →
      handleChatEvent now st ts (some p) =
        ((scheduleChatStreamSync now st
            { ts with buffer := some t, segmentsBuffer := p.segments }).1,
         (scheduleChatStreamSync now st
            { ts with buffer := some t, segmentsBuffer := p.segments }).2,
         some "delta") ∧
      (handleChatEvent now st ts (some p)).2.1.buffer = some t) ∧
    (¬(st.chatStream.getD "" = "" ∨ t.length ≥ (st.chatStream.getD "").length) →
      handleChatEvent now st ts (some p) = (st, ts, some "delta")) := by
  constructor
  · intro hacc
    have hmain : handleChatEvent now st ts (some p) =
        ((scheduleChatStreamSync now st
            { ts with buffer := some t, segmentsBuffer := p.segments }).1,
         (scheduleChatStreamSync now st
            { ts with buffer := some t, segmentsBuffer := p.segments }).2,
         some "delta") := by
      simp [handleChatEvent, hsk, hguard, hdl, hmsg, evStateStr, if_pos hacc]
    refine ⟨hmain, ?_⟩
    rw [hmain]
    have hb := (scheduleChatStreamSync_frame now st
      { ts with buffer := some t, segmentsBuffer := p.segments }).1
    simpa using hb
  · intro hrej
    simp [handleChatEvent, hsk, hguard, hdl, hmsg, evStateStr, if_neg hrej]

/-- Witness for `c6_delta_branch_monotonic_guard`: a shorter delta (`"a"`
against committed `"abc"`) is rejected and changes nothing. -/
theorem c6_witness :
    ¬((some "abc" : Option String).getD "" = "" ∨
        ("a" : String).length ≥ ((some "abc" : Option String).getD "").length) ∧
    handleChatEvent 10 ⟨"s", some "A", some "abc", none, some 1, none⟩
        ⟨none, none, none, 0⟩ (some ⟨"A", "s", .delta, some "a", none, none⟩) =
      (⟨"s", some "A", some "abc", none, some 1, none⟩, ⟨none, none, none, 0⟩, some "delta") := by
  have h := c6_delta_branch_monotonic_guard 10 ⟨"s", some "A", some "abc", none, some 1, none⟩
    ⟨none, none, none, 0⟩ ⟨"A", "s", .delta, some "a", none, none⟩ "a"
    rfl (by decide) rfl rfl
  exact ⟨by decide, h.2 (by decide)⟩

/-- Claim C10: with no active run (`chatRunId = null`) the cross-run guard is
inert — a `final` payload for any `runId` on the matching session flushes and
returns `final` (never `final-other`), and a delta payload passes the guard:
with `chatStream` null (as after an abort/error cleared the run) its text is
written to the throttle buffer, `chatRunId` stays null, and a leading-edge
commit makes `chatStream` non-null again. -/
theorem c10_guard_inert_without_active_run (now : Int) (st : ChatState)
    (ts : ChatStreamThrottleState) (p : ChatEventPayload)
    (hrun : st.chatRunId = none) (hsk : p.sessionKey = st.sessionKey) :
    (p.state = .final →
      handleChatEvent now st ts (some p) =
        ((flushChatStream st ts).1, (flushChatStream st ts).2, some "final")) ∧
    (∀ t : String, p.state = .delta → p.message = some t → st.chatStream = none →
      (handleChatEvent now st ts (some p)).2.1.buffer = some t ∧
      (handleChatEvent now st ts (some p)).2.2 = some "delta" ∧
      (handleChatEvent now st ts (some p)).1.chatRunId = none ∧
      (ts.pendingSync = none → now - ts.lastSyncTime ≥ CHAT_STREAM_THROTTLE_MS →
        (handleChatEvent now st ts (some p)).1.chatStream = some t)) := by
  have hguard : crossRunMismatch st p = false := by
    simp [crossRunMismatch, truthy, hrun]
  constructor
  · intro hfin
    simp [handleChatEvent, hsk, hguard, hfin]
  · intro t hdl hmsg hcs
    have hacc : st.chatStream.getD "" = "" ∨ t.length ≥ (st.chatStream.getD "").length := by
      left; rw [hcs]; rfl
    have hmain : handleChatEvent now st ts (some p) =
        ((scheduleChatStreamSync now st
            { ts with buffer := some t, segmentsBuffer := p.segments }).1,
         (scheduleChatStreamSync now st
            { ts with buffer := some t, segmentsBuffer := p.segments }).2,
         some "delta") := by
      simp [handleChatEvent, hsk, hguard, hdl, hmsg, evStateStr, if_pos hacc]
    rw [hmain]
    refine ⟨?_, rfl, ?_, ?_⟩
    · simpa using (scheduleChatStreamSync_frame now st
        { ts with buffer := some t, segmentsBuffer := p.segments }).1
    · rw [(scheduleChatStreamSync_frame now st
        { ts with buffer := some t, segmentsBuffer := p.segments }).2.2.1, hrun]
    · intro hpend helap
      rw [scheduleChatStreamSync_lead now st
        { ts with buffer := some t, segmentsBuffer := p.segments } (by simpa using hpend)
        (by simpa using helap)]
      exact (syncChatStreamBuffer_commit now st
        { ts with buffer := some t, segmentsBuffer := p.segments } t rfl
        (by rw [hcs]; exact Option.some_ne_none t)).1

/-- Witness for `c10_guard_inert_without_active_run`: a late delta for run
`"B"` after the run state was cleared re-populates `chatStream`. -/
theorem c10_witness :
    (none : Option String) = none ∧
    (handleChatEvent 100 ⟨"s", none, none, none, none, none⟩
        ⟨none, none, none, 0⟩ (some ⟨"B", "s", .delta, some "tail", none, none⟩)).2.1.buffer
      = some "tail" ∧
    (handleChatEvent 100 ⟨"s", none, none, none, none, none⟩
        ⟨none, none, none, 0⟩ (some ⟨"B", "s", .delta, some "tail", none, none⟩)).1.chatRunId
      = none ∧
    (handleChatEvent 100 ⟨"s", none, none, none, none, none⟩
        ⟨none, none, none, 0⟩ (some ⟨"B", "s", .delta, some "tail", none, none⟩)).1.chatStream
      = some "tail" := by
  have h := (c10_guard_inert_without_active_run 100 ⟨"s", none, none, none, none, none⟩
    ⟨none, none, none, 0⟩ ⟨"B", "s", .delta, some "tail", none, none⟩ rfl rfl).2
    "tail" rfl rfl rfl
  exact ⟨rfl, h.1, h.2.2.1, h.2.2.2 rfl (by decide)⟩

/-! ### Claim C7 -/

/-- Claim C7: on a heartbeat tick while connected on the chat tab, the stale
branch runs exactly when `chatRunId` and `chatStreamStartedAt` are both set
(truthy) and more than `CHAT_STREAM_TIMEOUT_MS = 60000` ms have elapsed since
the run started; it then nulls the four stream fields and triggers a history
reload, and because the reset falsifies the timeout predicate, every later
tick on the cleared state is a no-op — the branch fires at most once per
stall. -/
theorem c7_heartbeat_fires_once (now : Int) (st : ChatState) :
    (checkChatStreamTimeout now st = true ↔
      truthy st.chatRunId = true ∧ truthyTime st.chatStreamStartedAt = true ∧
        now - st.chatStreamStartedAt.getD 0 > CHAT_STREAM_TIMEOUT_MS) ∧
    CHAT_STREAM_TIMEOUT_MS = 60000 ∧
    (checkChatStreamTimeout now st = true →
      handleChatHeartbeat now true true st =
        ({ st with
            chatRunId := none
            chatStream := none
            chatStreamSegments := none
            chatStreamStartedAt := none }, true)) ∧
    (checkChatStreamTimeout now st = false →
      handleChatHeartbeat now true true st = (st, false)) ∧
    (checkChatStreamTimeout now st = true →
      ∀ now2 : Int,
        checkChatStreamTimeout now2 (handleChatHeartbeat now true true st).1 = false ∧
        handleChatHeartbeat now2 true true (handleChatHeartbeat now true true st).1 =
          ((handleChatHeartbeat now true true st).1, false)) := by
  refine ⟨?_, rfl, ?_, ?_, ?_⟩
  · rcases h1 : truthy st.chatRunId <;> rcases h2 : truthyTime st.chatStreamStartedAt <;>
      simp [checkChatStreamTimeout, h1, h2]
  · intro hchk
    simp [handleChatHeartbeat, hchk]
  · intro hchk
    simp [handleChatHeartbeat, hchk]
  · intro hchk now2
    have hmain : handleChatHeartbeat now true true st =
        ({ st with
            chatRunId := none
            chatStream := none
            chatStreamSegments := none
            chatStreamStartedAt := none }, true) := by
      simp [handleChatHeartbeat, hchk]
    rw [hmain]
    constructor
    · simp [checkChatStreamTimeout, truthy]
    · simp [handleChatHeartbeat, checkChatStreamTimeout, truthy]

/-- Witness for `c7_heartbeat_fires_once`: a run started at `1000` observed at
`70000` (69 s elapsed) is stalled; the tick clears it and a second tick at any
later time is a no-op. -/
theorem c7_witness :
    checkChatStreamTimeout 70000 ⟨"s", some "A", some "x", none, some 1000, none⟩ = true ∧
    handleChatHeartbeat 70000 true true ⟨"s", some "A", some "x", none, some 1000, none⟩ =
      (⟨"s", none, none, none, none, none⟩, true) ∧
    handleChatHeartbeat 999999 true true ⟨"s", none, none, none, none, none⟩ =
      (⟨"s", none, none, none, none, none⟩, false) := by
  have h := c7_heartbeat_fires_once 70000 ⟨"s", some "A", some "x", none, some 1000, none⟩
  have hchk : checkChatStreamTimeout 70000 ⟨"s", some "A", some "x", none, some 1000, none⟩
      = true := by decide
  have h3 := h.2.2.1 hchk
  have h5 := (h.2.2.2.2 hchk 999999).2
  rw [h3] at h5
  exact ⟨hchk, h3, h5⟩

/-! ### Claim C4 -/

theorem handleChatEvent_delta_schedules (now : Int) (st : ChatState)
    (ts : ChatStreamThrottleState) (p : ChatEventPayload) (t : String)
    (hsk : p.sessionKey = st.sessionKey)
    (hguard : crossRunMismatch st p = false)
    (hdl : p.state = .delta) (hmsg : p.message = some t)
    (hacc : st.chatStream.getD "" = "" ∨ t.length ≥ (st.chatStream.getD "").length)
    (hpend : ts.pendingSync = none)
    (hwin : now - ts.lastSyncTime < CHAT_STREAM_THROTTLE_MS) :
    handleChatEvent now st ts (some p) =
      (st, ⟨some t, p.segments, some (ts.lastSyncTime + CHAT_STREAM_THROTTLE_MS),
        ts.lastSyncTime⟩, some "delta") := by
  have hmain : handleChatEvent now st ts (some p) =
      ((scheduleChatStreamSync now st
          { ts with buffer := some t, segmentsBuffer := p.segments }).1,
       (scheduleChatStreamSync now st
          { ts with buffer := some t, segmentsBuffer := p.segments }).2,
       some "delta") := by
    simp [handleChatEvent, hsk, hguard, hdl, hmsg, evStateStr, if_pos hacc]
  rw [hmain, scheduleChatStreamSync_defer now st _ (by simpa using hpend) (by simpa using hwin)]

theorem handleChatEvent_delta_timer_outstanding (now : Int) (st : ChatState)
    (ts : ChatStreamThrottleState) (p : ChatEventPayload) (t : String)
    (hsk : p.sessionKey = st.sessionKey)
    (hguard : crossRunMismatch st p = false)
    (hdl : p.state = .delta) (hmsg : p.message = some t)
    (hacc : st.chatStream.getD "" = "" ∨ t.length ≥ (st.chatStream.getD "").length)
    (hpend : ts.pendingSync ≠ none) :
    handleChatEvent now st ts (some p) =
      (st, { ts with buffer := some t, segmentsBuffer := p.segments }, some "delta") := by
  have hmain : handleChatEvent now st ts (some p) =
      ((scheduleChatStreamSync now st
          { ts with buffer := some t, segmentsBuffer := p.segments }).1,
       (scheduleChatStreamSync now st
          { ts with buffer := some t, segmentsBuffer := p.segments }).2,
       some "delta") := by
    simp [handleChatEvent, hsk, hguard, hdl, hmsg, evStateStr, if_pos hacc]
  rw [hmain, scheduleChatStreamSync_already_pending now st _ (by simpa using hpend)]

/-- Counterexample to claim C4: five delta ingests at times 10..30 ms (one
throttle interval after `lastSyncTime = 0`), each carrying `"aa"` while
`chatStream` already equals `"aa"`; every one passes the monotonic guard
(`length 2 ≥ length 2`, so each IS an accepted ingest that overwrites the
buffer and at most one timer is ever outstanding), yet ZERO assignments to
`chatStream` occur — when the deferred commit fires, `syncChatStreamBuffer`
skips the write because the buffered value equals the committed one. The
claim's "exactly one assignment" is therefore false. -/
theorem c4_counterexample :
    handleChatEvent 10 ⟨"s", some "A", some "aa", none, some 1, none⟩ ⟨none, none, none, 0⟩
        (some ⟨"A", "s", .delta, some "aa", none, none⟩) =
      (⟨"s", some "A", some "aa", none, some 1, none⟩, ⟨some "aa", none, some 50, 0⟩,
        some "delta") ∧
    handleChatEvent 15 ⟨"s", some "A", some "aa", none, some 1, none⟩
        ⟨some "aa", none, some 50, 0⟩ (some ⟨"A", "s", .delta, some "aa", none, none⟩) =
      (⟨"s", some "A", some "aa", none, some 1, none⟩, ⟨some "aa", none, some 50, 0⟩,
        some "delta") ∧
    handleChatEvent 20 ⟨"s", some "A", some "aa", none, some 1, none⟩
        ⟨some "aa", none, some 50, 0⟩ (some ⟨"A", "s", .delta, some "aa", none, none⟩) =
      (⟨"s", some "A", some "aa", none, some 1, none⟩, ⟨some "aa", none, some 50, 0⟩,
        some "delta") ∧
    handleChatEvent 25 ⟨"s", some "A", some "aa", none, some 1, none⟩
        ⟨some "aa", none, some 50, 0⟩ (some ⟨"A", "s", .delta, some "aa", none, none⟩) =
      (⟨"s", some "A", some "aa", none, some 1, none⟩, ⟨some "aa", none, some 50, 0⟩,
        some "delta") ∧
    handleChatEvent 30 ⟨"s", some "A", some "aa", none, some 1, none⟩
        ⟨some "aa", none, some 50, 0⟩ (some ⟨"A", "s", .delta, some "aa", none, none⟩) =
      (⟨"s", some "A", some "aa", none, some 1, none⟩, ⟨some "aa", none, some 50, 0⟩,
        some "delta") ∧
    firePendingSync 50 ⟨"s", some "A", some "aa", none, some 1, none⟩
        ⟨some "aa", none, some 50, 0⟩ =
      (⟨"s", some "A", some "aa", none, some 1, none⟩, ⟨some "aa", none, none, 50⟩) ∧
    syncAssigns ⟨"s", some "A", some "aa", none, some 1, none⟩ ⟨some "aa", none, none, 0⟩ = 0 ∧
    (⟨"s", some "A", some "aa", none, some 1, none⟩ : ChatState).chatStream = some "aa" := by
  decide

/-- Claim C4 (amended): five accepted delta ingests for the active run within
one throttle window (each at `tᵢ` with `tᵢ - lastSyncTime < 50`, starting with
no outstanding timer) perform no commit themselves; the first ingest creates
the single `setTimeout` (fire time `lastSyncTime + 50`) and the other four
create none, so at most one timer handle exists at every point; when the timer
fires, the committed `chatStream` equals the LAST ingested text, via exactly
one assignment when that text differs from the window-start `chatStream` and
via zero assignments (the redundant write is skipped) when it is equal. -/
theorem c4_coalescing (st0 : ChatState) (ts0 : ChatStreamThrottleState) (r : String)
    (x1 x2 x3 x4 x5 : String) (sg1 sg2 sg3 sg4 sg5 : Option (List String))
    (t1 t2 t3 t4 t5 : Int)
    (hrun : st0.chatRunId = some r)
    (hpend : ts0.pendingSync = none)
    (hacc1 : st0.chatStream.getD "" = "" ∨ x1.length ≥ (st0.chatStream.getD "").length)
    (hacc2 : st0.chatStream.getD "" = "" ∨ x2.length ≥ (st0.chatStream.getD "").length)
    (hacc3 : st0.chatStream.getD "" = "" ∨ x3.length ≥ (st0.chatStream.getD "").length)
    (hacc4 : st0.chatStream.getD "" = "" ∨ x4.length ≥ (st0.chatStream.getD "").length)
    (hacc5 : st0.chatStream.getD "" = "" ∨ x5.length ≥ (st0.chatStream.getD "").length)
    (hw1 : t1 - ts0.lastSyncTime < CHAT_STREAM_THROTTLE_MS)
    (hw2 : t2 - ts0.lastSyncTime < CHAT_STREAM_THROTTLE_MS)
    (hw3 : t3 - ts0.lastSyncTime < CHAT_STREAM_THROTTLE_MS)
    (hw4 : t4 - ts0.lastSyncTime < CHAT_STREAM_THROTTLE_MS)
    (hw5 : t5 - ts0.lastSyncTime < CHAT_STREAM_THROTTLE_MS) :
    handleChatEvent t1 st0 ts0 (some ⟨r, st0.sessionKey, .delta, some x1, none, sg1⟩) =
      (st0, ⟨some x1, sg1, some (ts0.lastSyncTime + CHAT_STREAM_THROTTLE_MS),
        ts0.lastSyncTime⟩, some "delta") ∧
    handleChatEvent t2 st0
        ⟨some x1, sg1, some (ts0.lastSyncTime + CHAT_STREAM_THROTTLE_MS), ts0.lastSyncTime⟩
        (some ⟨r, st0.sessionKey, .delta, some x2, none, sg2⟩) =
      (st0, ⟨some x2, sg2, some (ts0.lastSyncTime + CHAT_STREAM_THROTTLE_MS),
        ts0.lastSyncTime⟩, some "delta") ∧
    handleChatEvent t3 st0
        ⟨some x2, sg2, some (ts0.lastSyncTime + CHAT_STREAM_THROTTLE_MS), ts0.lastSyncTime⟩
        (some ⟨r, st0.sessionKey, .delta, some x3, none, sg3⟩) =
      (st0, ⟨some x3, sg3, some (ts0.lastSyncTime + CHAT_STREAM_THROTTLE_MS),
        ts0.lastSyncTime⟩, some "delta") ∧
    handleChatEvent t4 st0
        ⟨some x3, sg3, some (ts0.lastSyncTime + CHAT_STREAM_THROTTLE_MS), ts0.lastSyncTime⟩
        (some ⟨r, st0.sessionKey, .delta, some x4, none, sg4⟩) =
      (st0, ⟨some x4, sg4, some (ts0.lastSyncTime + CHAT_STREAM_THROTTLE_MS),
        ts0.lastSyncTime⟩, some "delta") ∧
    handleChatEvent t5 st0
        ⟨some x4, sg4, some (ts0.lastSyncTime + CHAT_STREAM_THROTTLE_MS), ts0.lastSyncTime⟩
        (some ⟨r, st0.sessionKey, .delta, some x5, none, sg5⟩) =
      (st0, ⟨some x5, sg5, some (ts0.lastSyncTime + CHAT_STREAM_THROTTLE_MS),
        ts0.lastSyncTime⟩, some "delta") ∧
    setTimeoutCalls t1 { ts0 with buffer := some x1, segmentsBuffer := sg1 } = 1 ∧
    setTimeoutCalls t2
      ⟨some x2, sg2, some (ts0.lastSyncTime + CHAT_STREAM_THROTTLE_MS), ts0.lastSyncTime⟩ = 0 ∧
    setTimeoutCalls t3
      ⟨some x3, sg3, some (ts0.lastSyncTime + CHAT_STREAM_THROTTLE_MS), ts0.lastSyncTime⟩ = 0 ∧
    setTimeoutCalls t4
      ⟨some x4, sg4, some (ts0.lastSyncTime + CHAT_STREAM_THROTTLE_MS), ts0.lastSyncTime⟩ = 0 ∧
    setTimeoutCalls t5
      ⟨some x5, sg5, some (ts0.lastSyncTime + CHAT_STREAM_THROTTLE_MS), ts0.lastSyncTime⟩ = 0 ∧
    (firePendingSync (ts0.lastSyncTime + CHAT_STREAM_THROTTLE_MS) st0
        ⟨some x5, sg5, some (ts0.lastSyncTime + CHAT_STREAM_THROTTLE_MS),
          ts0.lastSyncTime⟩).1.chatStream = some x5 ∧
    (firePendingSync (ts0.lastSyncTime + CHAT_STREAM_THROTTLE_MS) st0
        ⟨some x5, sg5, some (ts0.lastSyncTime + CHAT_STREAM_THROTTLE_MS),
          ts0.lastSyncTime⟩).2.pendingSync = none ∧
    syncAssigns st0 ⟨some x5, sg5, none, ts0.lastSyncTime⟩ =
      (if some x5 = st0.chatStream then 0 else 1) := by
  have hguard : ∀ (x : String) (sg : Option (List String)),
      crossRunMismatch st0 ⟨r, st0.sessionKey, .delta, some x, none, sg⟩ = false := by
    intro x sg
    simp [crossRunMismatch, hrun]
  refine ⟨?_, ?_, ?_, ?_, ?_, ?_, ?_, ?_, ?_, ?_, ?_, ?_, ?_⟩
  · exact handleChatEvent_delta_schedules t1 st0 ts0 _ x1 rfl (hguard x1 sg1) rfl rfl
      hacc1 hpend hw1
  · exact handleChatEvent_delta_timer_outstanding t2 st0 _ _ x2 rfl (hguard x2 sg2) rfl rfl
      hacc2 (by simp)
  · exact handleChatEvent_delta_timer_outstanding t3 st0 _ _ x3 rfl (hguard x3 sg3) rfl rfl
      hacc3 (by simp)
  · exact handleChatEvent_delta_timer_outstanding t4 st0 _ _ x4 rfl (hguard x4 sg4) rfl rfl
      hacc4 (by simp)
  · exact handleChatEvent_delta_timer_outstanding t5 st0 _ _ x5 rfl (hguard x5 sg5) rfl rfl
      hacc5 (by simp)
  · simp [setTimeoutCalls, hpend, not_le.mpr hw1]
  · simp [setTimeoutCalls]
  · simp [setTimeoutCalls]
  · simp [setTimeoutCalls]
  · simp [setTimeoutCalls]
  · by_cases heq : some x5 = st0.chatStream
    · have := (syncChatStreamBuffer_frame (ts0.lastSyncTime + CHAT_STREAM_THROTTLE_MS) st0
        ⟨some x5, sg5, none, ts0.lastSyncTime⟩)
      unfold firePendingSync syncChatStreamBuffer
      simp [heq.symm]
    · exact (syncChatStreamBuffer_commit (ts0.lastSyncTime + CHAT_STREAM_THROTTLE_MS) st0
        ⟨some x5, sg5, none, ts0.lastSyncTime⟩ x5 rfl heq).1
  · exact (syncChatStreamBuffer_frame (ts0.lastSyncTime + CHAT_STREAM_THROTTLE_MS) st0
      ⟨some x5, sg5, none, ts0.lastSyncTime⟩).2.2.1
  · by_cases heq : some x5 = st0.chatStream <;> simp [syncAssigns, heq]

/-- Witness for `c4_coalescing`: texts `"a"`,…,`"aaaaa"` ingested at
10,12,14,16,18 ms into an empty stream commit `"aaaaa"` once at 50 ms. -/
theorem c4_witness :
    ((10 : Int) - 0 < CHAT_STREAM_THROTTLE_MS ∧ (18 : Int) - 0 < CHAT_STREAM_THROTTLE_MS) ∧
    handleChatEvent 10 ⟨"s", some "A", none, none, some 1, none⟩ ⟨none, none, none, 0⟩
        (some ⟨"A", "s", .delta, some "a", none, none⟩) =
      (⟨"s", some "A", none, none, some 1, none⟩, ⟨some "a", none, some 50, 0⟩, some "delta") ∧
    setTimeoutCalls 10 ⟨some "a", none, none, 0⟩ = 1 ∧
    setTimeoutCalls 18 ⟨some "aaaaa", none, some 50, 0⟩ = 0 ∧
    (firePendingSync 50 ⟨"s", some "A", none, none, some 1, none⟩
        ⟨some "aaaaa", none, some 50, 0⟩).1.chatStream = some "aaaaa" ∧
    syncAssigns ⟨"s", some "A", none, none, some 1, none⟩ ⟨some "aaaaa", none, none, 0⟩ = 1 := by
  have h := c4_coalescing ⟨"s", some "A", none, none, some 1, none⟩ ⟨none, none, none, 0⟩
    "A" "a" "aa" "aaa" "aaaa" "aaaaa" none none none none none 10 12 14 16 18
    rfl rfl (by decide) (by decide) (by decide) (by decide) (by decide)
    (by decide) (by decide) (by decide) (by decide) (by decide)
  refine ⟨by decide, ?_, ?_, ?_, ?_, ?_⟩
  · simpa using h.1
  · simpa using h.2.2.2.2.2.1
  · simpa using h.2.2.2.2.2.2.2.2.2.1
  · simpa using h.2.2.2.2.2.2.2.2.2.2.1
  · simpa using h.2.2.2.2.2.2.2.2.2.2.2.2

/-! ### Claims C8, C9 -/

theorem startsWith_length {s p : List Char} (h : startsWith s p = true) :
    p.length ≤ s.length := by
  induction p generalizing s with
  | nil => simp
  | cons b bs ih =>
    cases s with
    | nil => simp [startsWith] at h
    | cons a as =>
      simp only [startsWith, Bool.and_eq_true] at h
      simpa using Nat.succ_le_succ (ih h.2)

theorem commonPrefixLength_le_right (a b : List Char) :
    commonPrefixLength a b ≤ b.length := by
  induction a generalizing b with
  | nil => simp [commonPrefixLength]
  | cons x xs ih =>
    cases b with
    | nil => simp [commonPrefixLength]
    | cons y ys =>
      simp only [commonPrefixLength]
      split
      · simpa using Nat.succ_le_succ (ih ys)
      · simp

theorem TypewriterDirective.update_inv (s : TypewriterDirective) (t : List Char) :
    RevealInv (s.update t) := by
  unfold TypewriterDirective.update RevealInv
  exact Nat.min_le_right _ _

theorem TypewriterDirective.tick_inv (s : TypewriterDirective) (h : RevealInv s) :
    RevealInv s.tick := by
  unfold TypewriterDirective.tick RevealInv at *
  split
  · exact h
  · simp

theorem TypewriterDirective.tick_target (s : TypewriterDirective) :
    s.tick.target = s.target := by
  unfold TypewriterDirective.tick
  split <;> rfl

theorem TypewriterDirective.tick_iter_inv (u : TypewriterDirective) (h : RevealInv u) (n : Nat) :
    RevealInv ((TypewriterDirective.tick)^[n] u) ∧
    ((TypewriterDirective.tick)^[n] u).target = u.target := by
  induction n with
  | zero => exact ⟨h, rfl⟩
  | succ m ih =>
    rw [Function.iterate_succ_apply']
    exact ⟨TypewriterDirective.tick_inv _ ih.1,
      (TypewriterDirective.tick_target _).trans ih.2⟩

/-- Claim C8: a bind-time update from old target `s.target` to new target `t`
keeps `revealedCount` unchanged on append (`t.startsWith(old)`), clamps it to
`min revealed t.length` on truncation (`old.startsWith(t)`), and clamps it to
`min revealed (commonPrefixLength old t)` on a rewrite; consequently after
ingesting a prefix of earlier text no character beyond the new target is ever
revealed, no matter how many animation frames follow. -/
theorem c8_update_clamps (s : TypewriterDirective) (t : List Char)
    (hinv : s.revealed ≤ s.target.length) :
    (startsWith t s.target = true → (s.update t).revealed = s.revealed) ∧
    (startsWith s.target t = true → (s.update t).revealed = min s.revealed t.length) ∧
    (startsWith t s.target = false → startsWith s.target t = false →
      (s.update t).revealed = min s.revealed (commonPrefixLength s.target t)) ∧
    (∀ n : Nat, ((TypewriterDirective.tick)^[n] (s.update t)).revealed ≤ t.length) := by
  refine ⟨?_, ?_, ?_, ?_⟩
  · intro h1
    have hlen : s.target.length ≤ t.length := startsWith_length h1
    simp [TypewriterDirective.update, h1, min_eq_left (le_trans hinv hlen)]
  · intro h2
    by_cases h1 : startsWith t s.target = true
    · simp [TypewriterDirective.update, h1]
    · simp only [Bool.not_eq_true] at h1
      simp [TypewriterDirective.update, h1, h2, min_assoc]
  · intro h1 h2
    have hc : min s.revealed (commonPrefixLength s.target t) ≤ t.length :=
      le_trans (Nat.min_le_right _ _) (commonPrefixLength_le_right _ _)
    simp [TypewriterDirective.update, h1, h2, min_eq_left hc]
  · intro n
    have h := TypewriterDirective.tick_iter_inv (s.update t)
      (TypewriterDirective.update_inv s t) n
    have htar : ((TypewriterDirective.tick)^[n] (s.update t)).target = t := h.2
    have := h.1
    unfold RevealInv at this
    rwa [htar] at this

/-- Witness for `c8_update_clamps`: truncating target `"abcdefghij"` to its
prefix `"abc"` with 7 characters already revealed clamps the cursor to 3, and
no later frame reveals past the new target. -/
theorem c8_witness :
    (⟨"abcdefghij".data, 7⟩ : TypewriterDirective).revealed ≤
      (⟨"abcdefghij".data, 7⟩ : TypewriterDirective).target.length ∧
    startsWith "abcdefghij".data "abc".data = true ∧
    ((⟨"abcdefghij".data, 7⟩ : TypewriterDirective).update "abc".data).revealed = 3 ∧
    ((TypewriterDirective.tick)^[4]
        ((⟨"abcdefghij".data, 7⟩ : TypewriterDirective).update "abc".data)).revealed ≤ 3 := by
  have h := c8_update_clamps ⟨"abcdefghij".data, 7⟩ "abc".data (by decide)
  refine ⟨by decide, by decide, ?_, ?_⟩
  · have h2 := h.2.1 (by decide)
    simpa using h2
  · have h4 := h.2.2.2 4
    simpa using h4

/-- Claim C9: `0 ≤ revealedCount ≤ targetText.length` holds at first bind, is
(re-)established by every bind-time update, and is preserved by every
animation-frame tick, which advances the cursor by `CHARS_PER_FRAME = 12`
characters, boosted fourfold (`CATCH_UP_MULTIPLIER = 4`) when the unrevealed
backlog exceeds `CATCH_UP_THRESHOLD = 200`, capped at the target length (the
lower bound `0 ≤ revealedCount` is the `Nat` type of the cursor). -/
theorem c9_reveal_invariant :
    RevealInv TypewriterDirective.initial ∧
    (∀ (s : TypewriterDirective) (t : List Char), RevealInv (s.update t)) ∧
    (∀ s : TypewriterDirective, RevealInv s → RevealInv s.tick) ∧
    (∀ s : TypewriterDirective, s.revealed < s.target.length →
      s.tick.revealed =
        min
          (s.revealed +
            (if s.target.length - s.revealed > CATCH_UP_THRESHOLD then
              CHARS_PER_FRAME * CATCH_UP_MULTIPLIER
            else
              CHARS_PER_FRAME))
          s.target.length) ∧
    CHARS_PER_FRAME = 12 ∧ CATCH_UP_THRESHOLD = 200 ∧ CATCH_UP_MULTIPLIER = 4 := by
  refine ⟨by simp [RevealInv, TypewriterDirective.initial], TypewriterDirective.update_inv,
    TypewriterDirective.tick_inv, ?_, rfl, rfl, rfl⟩
  intro s h
  unfold TypewriterDirective.tick
  rw [if_neg (by omega)]

/-- Witness for `c9_reveal_invariant`: a 300-character target with nothing
revealed is in catch-up mode, so one tick reveals 48 characters and keeps the
invariant. -/
theorem c9_witness :
    RevealInv (⟨List.replicate 300 'a', 0⟩ : TypewriterDirective) ∧
    (0 : Nat) < (List.replicate 300 'a').length ∧
    (⟨List.replicate 300 'a', 0⟩ : TypewriterDirective).tick.revealed = 48 ∧
    RevealInv (⟨List.replicate 300 'a', 0⟩ : TypewriterDirective).tick := by
  have hlen : (List.replicate 300 'a').length = 300 := List.length_replicate 300 'a'
  have hpos : (0 : Nat) < (List.replicate 300 'a').length := by rw [hlen]; norm_num
  have hinv : RevealInv (⟨List.replicate 300 'a', 0⟩ : TypewriterDirective) := Nat.zero_le _
  have h3 := c9_reveal_invariant.2.2.2.1 ⟨List.replicate 300 'a', 0⟩ hpos
  have h4 := c9_reveal_invariant.2.2.1 ⟨List.replicate 300 'a', 0⟩ hinv
  refine ⟨hinv, hpos, ?_, h4⟩
  rw [h3]
  dsimp only
  rw [hlen]
  norm_num [CHARS_PER_FRAME, CATCH_UP_THRESHOLD, CATCH_UP_MULTIPLIER]
